import Mathlib

/-
Verification of the RenderingEngine core
(src/src/cornerstone-core/RenderingEngine/RenderingEngine.ts).

The engine state and its operations are embedded shallowly: DOM canvases are
records of pixel dimensions, the JS Set of dirty viewport uids is a
duplicate-free list, the host animation-frame scheduler is a counter of
handles, and every externally visible action (scheduling, cancelling, the
offscreen render pass, blits, notifications) is recorded in an effect list.
Rational numbers stand in for the JS floating-point normalized viewport
coordinates (exact for the integer pixel inputs the engine works with,
away from division by zero).
-/

namespace Cornerstone

/-- JS number as this module produces it: an integer-valued number or negative
infinity, the value of Math.max applied to no arguments. -/
inductive JsNum where
  | negInf : JsNum
  | num : Nat → JsNum
deriving DecidableEq, Repr

/-- Math.max over a spread list of integer arguments: negative infinity for the
empty list, otherwise the maximum. -/
def jsMathMax (l : List Nat) : JsNum :=
  match l with
  | [] => JsNum.negInf
  | h :: t => JsNum.num (t.foldl (fun a b => max a b) h)

/-- Coercion of the shared-surface height into the rational coordinate
computations. The negInf case arises only for an empty viewport list, in which
case no per-viewport computation ever runs, so its value is irrelevant. -/
def jsNumToRat (h : JsNum) : ℚ :=
  match h with
  | JsNum.negInf => 0
  | JsNum.num n => (n : ℚ)

/-- An output canvas: its displayed (client) size and its backing pixel-buffer
size. -/
structure Canvas where
  clientWidth : Nat
  clientHeight : Nat
  width : Nat
  height : Nat
deriving DecidableEq, Repr

/-- A viewport as stored on a scene: identity, owning scene, its output canvas
and its source rectangle on the shared offscreen surface. -/
structure Viewport where
  uid : String
  sceneUID : String
  canvas : Canvas
  sx : Nat
  sy : Nat
  sWidth : Nat
  sHeight : Nat
deriving DecidableEq, Repr

/-- Modelled from the spec: the Scene class itself is not among the core
source files (only its use sites are). Per the spec a scene has an identity,
a frame-of-reference tag shared by its viewports (absent until assigned), and
an ordered collection of viewports; addViewport appends and getViewports
returns insertion order. -/
structure Scene where
  uid : String
  frameOfReferenceUID : Option String
  viewports : List Viewport
deriving DecidableEq, Repr

/-- One element of the setViewports input array. Of the default options only
the background color is consumed by the engine. -/
structure ViewportInput where
  canvas : Canvas
  sceneUID : String
  viewportUID : String
  type : String
  background : Option (Int × Int × Int)
deriving DecidableEq, Repr

/-- A renderer slot registered on the shared offscreen surface: keyed by
viewport uid, with a normalized viewport rect and a background color. -/
structure RendererEntry where
  uid : String
  rect : ℚ × ℚ × ℚ × ℚ
  background : Int × Int × Int
deriving DecidableEq, Repr

/-- Errors an engine operation can raise synchronously. -/
inductive EngineError where
  | useAfterDestroy : EngineError
  | unknownScene : EngineError
  | renderPassFailure : EngineError
deriving DecidableEq, Repr

/-- Externally visible actions of the engine, recorded in order. -/
inductive Effect where
  | scheduleCallback : Nat → Effect
  | cancelCallback : Option Nat → Effect
  | offscreenResize : Effect
  | renderPass : Effect
  | blit : String → Nat → Nat → Nat → Nat → Nat → Nat → Effect
  | elementEnabled : String → Effect
  | elementDisabled : String → Effect
  | imageRendered : String → Effect
  | releaseResources : Effect
deriving DecidableEq, Repr

/-- The mutable fields of a RenderingEngine instance, together with the
container dimensions of the shared offscreen surface, the renderer slots
registered on it, and the host scheduler's next fresh callback handle. -/
structure EngineState where
  uid : String
  hasBeenDestroyed : Bool
  scenes : List Scene
  needsRender : List String
  animationFrameSet : Bool
  animationFrameHandle : Option Nat
  containerWidth : Nat
  containerHeight : JsNum
  renderers : List RendererEntry
  nextHandle : Nat
deriving Repr

/-- Result of one engine operation: the state afterwards, the effects emitted
before returning or raising, and the error if one was raised. -/
structure OpResult where
  state : EngineState
  effects : List Effect
  error : Option EngineError

/-- Set.add of the dirty set: appends unless already present. -/
def jsSetAdd (s : List String) (x : String) : List String :=
  if x ∈ s then s else s ++ [x]

/-- forEach add over a list of uids. -/
def jsSetAddAll (s : List String) (xs : List String) : List String :=
  xs.foldl jsSetAdd s

/-- Set.delete of the dirty set. -/
def jsSetDelete (s : List String) (x : String) : List String :=
  s.filter (fun y => !(y == x))

/-- The flattened viewport list: scene insertion order, then viewport order
within each scene (the loop of getViewports). -/
def flatViewports (scenes : List Scene) : List Viewport :=
  scenes.foldr (fun sc acc => sc.viewports ++ acc) []

/-- getViewports, as a pure value (the destroyed check is in getViewportsOp). -/
def getViewportsList (s : EngineState) : List Viewport :=
  flatViewports s.scenes

/-- getScene, as a pure value: find by uid (undefined becomes none). -/
def findScene (s : EngineState) (uid : String) : Option Scene :=
  s.scenes.find? (fun sc => sc.uid == uid)

/-- Private _render: schedule the flush callback if some viewport needs
rendering and no animation frame is set yet. -/
def _render (s : EngineState) : EngineState × List Effect :=
  if 0 < s.needsRender.length ∧ s.animationFrameSet = false then
    ({ s with animationFrameSet := true,
              animationFrameHandle := some s.nextHandle,
              nextHandle := s.nextHandle + 1 },
     [Effect.scheduleCallback s.nextHandle])
  else (s, [])

/-- Private _setViewportsToBeRenderedNextFrame: add every uid to the dirty set,
then run _render. -/
def _setViewportsToBeRenderedNextFrame (s : EngineState) (viewportUIDs : List String) :
    EngineState × List Effect :=
  _render { s with needsRender := jsSetAddAll s.needsRender viewportUIDs }

/-- Public render: request a render of every known viewport. The destroyed
check happens inside getViewports. -/
def renderOp (s : EngineState) : OpResult :=
  if s.hasBeenDestroyed then ⟨s, [], some EngineError.useAfterDestroy⟩
  else
    let uids := (getViewportsList s).map Viewport.uid
    let p := _setViewportsToBeRenderedNextFrame s uids
    ⟨p.1, p.2, none⟩

/-- Public renderScene: request a render of one scene's viewports. The
destroyed check happens inside getScene; a missing scene makes the JS code
dereference undefined, modelled as the unknownScene error. -/
def renderSceneOp (s : EngineState) (sceneUID : String) : OpResult :=
  if s.hasBeenDestroyed then ⟨s, [], some EngineError.useAfterDestroy⟩
  else
    match findScene s sceneUID with
    | none => ⟨s, [], some EngineError.unknownScene⟩
    | some sc =>
      let p := _setViewportsToBeRenderedNextFrame s (sc.viewports.map Viewport.uid)
      ⟨p.1, p.2, none⟩

/-- Private _renderScenes: collect the viewport uids of the given scenes and
request their render; checks the destroyed flag first. -/
def _renderScenes (s : EngineState) (scenes : List Scene) : OpResult :=
  if s.hasBeenDestroyed then ⟨s, [], some EngineError.useAfterDestroy⟩
  else
    let uids := scenes.foldr (fun sc acc => sc.viewports.map Viewport.uid ++ acc) []
    let p := _setViewportsToBeRenderedNextFrame s uids
    ⟨p.1, p.2, none⟩

/-- Public renderScenes: resolve each scene uid through getScene (whose
destroyed check fires on the first lookup), then defer to _renderScenes.
A uid with no scene makes the JS loop dereference undefined, modelled as the
unknownScene error with no state change. -/
def renderScenesOp (s : EngineState) (sceneUIDs : List String) : OpResult :=
  if s.hasBeenDestroyed ∧ sceneUIDs ≠ [] then ⟨s, [], some EngineError.useAfterDestroy⟩
  else if (sceneUIDs.map (findScene s)).any (fun o => o.isNone) then
    ⟨s, [], some EngineError.unknownScene⟩
  else _renderScenes s (sceneUIDs.filterMap (findScene s))

/-- Public renderFrameOfReference: filter scenes by frame-of-reference tag and
defer to _renderScenes (which performs the destroyed check). -/
def renderFrameOfReferenceOp (s : EngineState) (tag : String) : OpResult :=
  _renderScenes s (s.scenes.filter (fun sc => sc.frameOfReferenceUID == some tag))

/-- Public renderViewports: request an explicit uid list. Note: this method
performs no destroyed check anywhere on its path. -/
def renderViewportsOp (s : EngineState) (viewportUIDs : List String) : OpResult :=
  let p := _setViewportsToBeRenderedNextFrame s viewportUIDs
  ⟨p.1, p.2, none⟩

/-- Public renderViewport: request a single viewport (the scene uid parameter
is unused by the source). Note: no destroyed check on its path. -/
def renderViewportOp (s : EngineState) (sceneUID viewportUID : String) : OpResult :=
  let p := _setViewportsToBeRenderedNextFrame s [viewportUID]
  ⟨p.1, p.2, none⟩

/-- Public getScene, as an operation: only its destroyed check matters here;
its return value is findScene. -/
def getSceneOp (s : EngineState) (uid : String) : OpResult :=
  if s.hasBeenDestroyed then ⟨s, [], some EngineError.useAfterDestroy⟩ else ⟨s, [], none⟩

/-- Public getScenes, as an operation; its return value is the scenes list. -/
def getScenesOp (s : EngineState) : OpResult :=
  if s.hasBeenDestroyed then ⟨s, [], some EngineError.useAfterDestroy⟩ else ⟨s, [], none⟩

/-- Public getViewports, as an operation; its return value is
getViewportsList. -/
def getViewportsOp (s : EngineState) : OpResult :=
  if s.hasBeenDestroyed then ⟨s, [], some EngineError.useAfterDestroy⟩ else ⟨s, [], none⟩

/-- Private _reset: disable every viewport (notification per viewport), cancel
the scheduled callback through its handle, clear the dirty set, both
scheduling fields, and the scene list. -/
def _reset (s : EngineState) : EngineState × List Effect :=
  ({ s with scenes := [],
            needsRender := [],
            animationFrameSet := false,
            animationFrameHandle := none },
   ((getViewportsList s).map (fun v => Effect.elementDisabled v.uid))
     ++ [Effect.cancelCallback s.animationFrameHandle])

/-- Public destroy: a second call is an early return; otherwise reset, release
the shared surface resources and set the destroyed flag. -/
def destroyOp (s : EngineState) : OpResult :=
  if s.hasBeenDestroyed then ⟨s, [], none⟩
  else
    let p := _reset s
    ⟨{ p.1 with hasBeenDestroyed := true, renderers := [] },
     p.2 ++ [Effect.releaseResources], none⟩

/-- Canvas backing-buffer sync: set the pixel buffer to the client size when
they differ. -/
def syncCanvas (c : Canvas) : Canvas :=
  if c.width ≠ c.clientWidth ∨ c.height ≠ c.clientHeight then
    { c with width := c.clientWidth, height := c.clientHeight }
  else c

/-- The normalized viewport rect registered on the shared surface, exactly as
both setViewports and resize compute it: x from the running pixel offset, y
flipped against the shared-surface height. -/
def normalizedRect (W : Nat) (Hq : ℚ) (sx sy width height : Nat) : ℚ × ℚ × ℚ × ℚ :=
  let sxDisplayCoords : ℚ := (sx : ℚ) / (W : ℚ)
  let syDisplayCoords : ℚ := (sy : ℚ) + ((Hq - (height : ℚ)) / Hq)
  let sWidthDisplayCoords : ℚ := (width : ℚ) / (W : ℚ)
  let sHeightDisplayCoords : ℚ := (height : ℚ) / Hq
  (sxDisplayCoords, syDisplayCoords,
   sxDisplayCoords + sWidthDisplayCoords, syDisplayCoords + sHeightDisplayCoords)

/-- getScene-or-create-and-push followed by scene.addViewport (append). -/
def addViewportToScenes (scenes : List Scene) (sceneUID : String) (v : Viewport) : List Scene :=
  if scenes.any (fun sc => sc.uid == sceneUID) then
    scenes.map (fun sc =>
      if sc.uid == sceneUID then { sc with viewports := sc.viewports ++ [v] } else sc)
  else scenes ++ [{ uid := sceneUID, frameOfReferenceUID := none, viewports := [v] }]

/-- Accumulator of the setViewports loop: the scenes built so far, the renderer
slots registered (in call order), the viewports created (in call order, the
sequence of addViewport calls), the running x offset, and the notifications
emitted. -/
structure SetVPAcc where
  scenes : List Scene
  renderers : List RendererEntry
  created : List Viewport
  xOffset : Nat
  effects : List Effect

/-- The per-descriptor loop of setViewports: sync the canvas buffer, compute
the source rectangle at the running offset, register the renderer slot at the
normalized rect, create the viewport in its scene, advance the offset, publish
element-enabled. -/
def setVPLoop (W : Nat) (Hq : ℚ) : List ViewportInput → SetVPAcc → SetVPAcc
  | [], acc => acc
  | d :: rest, acc =>
    let c := syncCanvas d.canvas
    let width := c.width
    let height := c.height
    let sx := acc.xOffset
    let sy : Nat := 0
    let r : RendererEntry :=
      { uid := d.viewportUID,
        rect := normalizedRect W Hq sx sy width height,
        background := d.background.getD (0, 0, 0) }
    let v : Viewport :=
      { uid := d.viewportUID, sceneUID := d.sceneUID, canvas := c,
        sx := sx, sy := sy, sWidth := width, sHeight := height }
    setVPLoop W Hq rest
      { scenes := addViewportToScenes acc.scenes d.sceneUID v,
        renderers := acc.renderers ++ [r],
        created := acc.created ++ [v],
        xOffset := acc.xOffset + width,
        effects := acc.effects ++ [Effect.elementEnabled d.viewportUID] }

/-- Public setViewports: destroyed check, reset, shared-surface sizing (sum of
client widths by max of client heights), then the per-descriptor loop. The
renderer slots are added to those already registered on the shared surface. -/
def setViewportsOp (s : EngineState) (viewports : List ViewportInput) : OpResult :=
  if s.hasBeenDestroyed then ⟨s, [], some EngineError.useAfterDestroy⟩
  else
    let p := _reset s
    let webglCanvasHeight := jsMathMax (viewports.map (fun d => d.canvas.clientHeight))
    let webglCanvasWidth := (viewports.map (fun d => d.canvas.clientWidth)).sum
    let acc := setVPLoop webglCanvasWidth (jsNumToRat webglCanvasHeight) viewports
      { scenes := [], renderers := [], created := [], xOffset := 0, effects := [] }
    ⟨{ p.1 with containerWidth := webglCanvasWidth,
                containerHeight := webglCanvasHeight,
                scenes := acc.scenes,
                renderers := s.renderers ++ acc.renderers },
     p.2 ++ [Effect.offscreenResize] ++ acc.effects, none⟩

/-- The viewports created by a setViewports call, in descriptor order (the
sequence of scene.addViewport calls). -/
def setViewportsCreated (viewports : List ViewportInput) : List Viewport :=
  (setVPLoop ((viewports.map (fun d => d.canvas.clientWidth)).sum)
    (jsNumToRat (jsMathMax (viewports.map (fun d => d.canvas.clientHeight)))) viewports
    { scenes := [], renderers := [], created := [], xOffset := 0, effects := [] }).created

/-- The renderer slots registered by a setViewports call, in descriptor
order. -/
def setViewportsRenderers (viewports : List ViewportInput) : List RendererEntry :=
  (setVPLoop ((viewports.map (fun d => d.canvas.clientWidth)).sum)
    (jsNumToRat (jsMathMax (viewports.map (fun d => d.canvas.clientHeight)))) viewports
    { scenes := [], renderers := [], created := [], xOffset := 0, effects := [] }).renderers

/-- The per-viewport body of the resize loop: sync the canvas buffer and
redefine the source rectangle from the live client dimensions at the running
offset. -/
def resizeVP (x : Nat) (v : Viewport) : Viewport :=
  { v with canvas := syncCanvas v.canvas,
           sx := x, sy := 0,
           sWidth := v.canvas.clientWidth, sHeight := v.canvas.clientHeight }

/-- getRenderer(uid).setViewport(rect) on the shared surface. -/
def updateRendererRect (rs : List RendererEntry) (uid : String) (rect : ℚ × ℚ × ℚ × ℚ) :
    List RendererEntry :=
  rs.map (fun r => if r.uid == uid then { r with rect := rect } else r)

/-- Resize traversal over one scene's viewports, threading the running offset
and renderer updates (the source iterates the flattened viewport list; the
viewport objects live inside their scenes). -/
def resizeVPs (W : Nat) (Hq : ℚ) :
    List Viewport → Nat → List RendererEntry → List Viewport × Nat × List RendererEntry
  | [], x, rs => ([], x, rs)
  | v :: rest, x, rs =>
    let v2 := resizeVP x v
    let rect := normalizedRect W Hq x 0 v.canvas.clientWidth v.canvas.clientHeight
    let q := resizeVPs W Hq rest (x + v.canvas.clientWidth) (updateRendererRect rs v.uid rect)
    (v2 :: q.1, q.2.1, q.2.2)

/-- Resize traversal over all scenes in order. -/
def resizeScenes (W : Nat) (Hq : ℚ) :
    List Scene → Nat → List RendererEntry → List Scene × Nat × List RendererEntry
  | [], x, rs => ([], x, rs)
  | sc :: rest, x, rs =>
    let q := resizeVPs W Hq sc.viewports x rs
    let q2 := resizeScenes W Hq rest q.2.1 q.2.2
    ({ sc with viewports := q.1 } :: q2.1, q2.2.1, q2.2.2)

/-- Public resize: destroyed check, recompute the shared-surface size from the
live client dimensions, reposition every existing viewport and its renderer
rect, then render all viewports. -/
def resizeOp (s : EngineState) : OpResult :=
  if s.hasBeenDestroyed then ⟨s, [], some EngineError.useAfterDestroy⟩
  else
    let vs := getViewportsList s
    let webglCanvasHeight := jsMathMax (vs.map (fun v => v.canvas.clientHeight))
    let webglCanvasWidth := (vs.map (fun v => v.canvas.clientWidth)).sum
    let q := resizeScenes webglCanvasWidth (jsNumToRat webglCanvasHeight) s.scenes 0 s.renderers
    let r := renderOp { s with containerWidth := webglCanvasWidth,
                               containerHeight := webglCanvasHeight,
                               scenes := q.1, renderers := q.2.2 }
    ⟨r.state, Effect.offscreenResize :: r.effects, r.error⟩

/-- Private _renderViewportToCanvas: the drawImage blit of the viewport's
source rectangle to its canvas, followed by the synchronous image-rendered
notification. -/
def _renderViewportToCanvas (v : Viewport) : List Effect :=
  [Effect.blit v.uid v.sx v.sy v.sWidth v.sHeight v.canvas.width v.canvas.height,
   Effect.imageRendered v.uid]

/-- One iteration of the flush loop body for one viewport: if its uid is
dirty, blit it (the image-rendered notification is dispatched synchronously,
so each subscriber may issue a render request re-entrantly at that point;
the reentrant parameter lists those calls, one uid list per call, empty when
no subscriber reacts), then delete its uid from the dirty set, and clear both
scheduling fields if the set is now empty. -/
def flushViewportVisit (reentrant : String → List (List String)) (s : EngineState)
    (v : Viewport) : EngineState × List Effect :=
  if v.uid ∈ s.needsRender then
    let blitEffects := _renderViewportToCanvas v
    let p := (reentrant v.uid).foldl
      (fun acc uids =>
        let q := _setViewportsToBeRenderedNextFrame acc.1 uids
        (q.1, acc.2 ++ q.2)) (s, ([] : List Effect))
    let s2 := { p.1 with needsRender := jsSetDelete p.1.needsRender v.uid }
    if s2.needsRender.length = 0 then
      ({ s2 with animationFrameSet := false, animationFrameHandle := none },
       blitEffects ++ p.2)
    else (s2, blitEffects ++ p.2)
  else (s, [])

/-- The flush loop over the flattened viewport list (scene order, then
viewport order; the early return inside the JS forEach only ends one callback
invocation, so iteration structurally continues and later non-dirty viewports
are simply skipped). -/
def flushVisitMany (reentrant : String → List (List String)) (s : EngineState) :
    List Viewport → EngineState × List Effect
  | [] => (s, [])
  | v :: vs =>
    let p := flushViewportVisit reentrant s v
    let q := flushVisitMany reentrant p.1 vs
    (q.1, p.2 ++ q.2)

/-- Private _renderFlaggedViewports, the scheduled flush callback: fail if
destroyed; run the shared-surface render pass once (a synchronous driver error
propagates before any engine state is touched); then blit each dirty viewport
in flattened order. -/
def _renderFlaggedViewports (renderPassSucceeds : Bool) (reentrant : String → List (List String))
    (s : EngineState) : OpResult :=
  if s.hasBeenDestroyed then ⟨s, [], some EngineError.useAfterDestroy⟩
  else if renderPassSucceeds = false then
    ⟨s, [], some EngineError.renderPassFailure⟩
  else
    let p := flushVisitMany reentrant s (getViewportsList s)
    ⟨p.1, Effect.renderPass :: p.2, none⟩

/-- A public operation or callback firing, for reachability. -/
inductive Step where
  | setViewports : List ViewportInput → Step
  | resize : Step
  | getScene : String → Step
  | getScenes : Step
  | getViewports : Step
  | render : Step
  | renderScene : String → Step
  | renderScenes : List String → Step
  | renderFrameOfReference : String → Step
  | renderViewports : List String → Step
  | renderViewport : String → String → Step
  | destroy : Step
  | fireCallback : Bool → (String → List (List String)) → Step

/-- Dispatch of one step to its operation. -/
def applyStep (s : EngineState) (st : Step) : OpResult :=
  match st with
  | Step.setViewports vps => setViewportsOp s vps
  | Step.resize => resizeOp s
  | Step.getScene uid => getSceneOp s uid
  | Step.getScenes => getScenesOp s
  | Step.getViewports => getViewportsOp s
  | Step.render => renderOp s
  | Step.renderScene uid => renderSceneOp s uid
  | Step.renderScenes uids => renderScenesOp s uids
  | Step.renderFrameOfReference tag => renderFrameOfReferenceOp s tag
  | Step.renderViewports uids => renderViewportsOp s uids
  | Step.renderViewport sceneUID viewportUID => renderViewportOp s sceneUID viewportUID
  | Step.destroy => destroyOp s
  | Step.fireCallback ok reentrant => _renderFlaggedViewports ok reentrant s

/-- Run a list of steps, threading the state (a raised error leaves the state
as the operation left it). -/
def runSteps (s : EngineState) (l : List Step) : EngineState :=
  l.foldl (fun t st => (applyStep t st).state) s

/-- The constructor's engine state: fresh container, nothing scheduled. -/
def initialEngine (uid : String) : EngineState :=
  { uid := uid, hasBeenDestroyed := false, scenes := [], needsRender := [],
    animationFrameSet := false, animationFrameHandle := none,
    containerWidth := 0, containerHeight := JsNum.num 0, renderers := [],
    nextHandle := 1 }

/-- A state reachable by some sequence of public operations and callback
firings from a fresh engine. -/
def reachableEngine (s : EngineState) : Prop :=
  ∃ uid steps, runSteps (initialEngine uid) steps = s

/-- The render-request entry points. -/
inductive RenderRequest where
  | render : RenderRequest
  | renderScene : String → RenderRequest
  | renderScenes : List String → RenderRequest
  | renderFrameOfReference : String → RenderRequest
  | renderViewports : List String → RenderRequest
  | renderViewport : String → String → RenderRequest

/-- Dispatch of one render request to its operation. -/
def applyRequest (s : EngineState) (r : RenderRequest) : OpResult :=
  match r with
  | RenderRequest.render => renderOp s
  | RenderRequest.renderScene uid => renderSceneOp s uid
  | RenderRequest.renderScenes uids => renderScenesOp s uids
  | RenderRequest.renderFrameOfReference tag => renderFrameOfReferenceOp s tag
  | RenderRequest.renderViewports uids => renderViewportsOp s uids
  | RenderRequest.renderViewport sceneUID viewportUID => renderViewportOp s sceneUID viewportUID

/-- The viewport uids a request passes to _setViewportsToBeRenderedNextFrame,
as a function of the scenes. -/
def requestUIDs (s : EngineState) (r : RenderRequest) : List String :=
  match r with
  | RenderRequest.render => (getViewportsList s).map Viewport.uid
  | RenderRequest.renderScene uid =>
    match findScene s uid with
    | some sc => sc.viewports.map Viewport.uid
    | none => []
  | RenderRequest.renderScenes uids =>
    (uids.filterMap (findScene s)).foldr (fun sc acc => sc.viewports.map Viewport.uid ++ acc) []
  | RenderRequest.renderFrameOfReference tag =>
    (s.scenes.filter (fun sc => sc.frameOfReferenceUID == some tag)).foldr
      (fun sc acc => sc.viewports.map Viewport.uid ++ acc) []
  | RenderRequest.renderViewports uids => uids
  | RenderRequest.renderViewport _ viewportUID => [viewportUID]

/-- A request is well formed when every scene uid it names resolves (the JS
code dereferences a missing scene and dies with a TypeError otherwise). -/
def requestOk (s : EngineState) (r : RenderRequest) : Bool :=
  match r with
  | RenderRequest.renderScene uid => (findScene s uid).isSome
  | RenderRequest.renderScenes uids => uids.all (fun u => (findScene s u).isSome)
  | _ => true

/-- Run a list of render requests, collecting each request's effects. -/
def runRequests (s : EngineState) (rs : List RenderRequest) :
    EngineState × List (List Effect) :=
  match rs with
  | [] => (s, [])
  | r :: rest =>
    let o := applyRequest s r
    let q := runRequests o.state rest
    (q.1, o.effects :: q.2)

/-- Number of callback schedulings among some effects. -/
def scheduleCount (l : List Effect) : Nat :=
  (l.filter (fun e => match e with | Effect.scheduleCallback _ => true | _ => false)).length

/-- The uids blitted, in order, among some effects. -/
def blitUIDs (l : List Effect) : List String :=
  l.filterMap (fun e => match e with | Effect.blit u _ _ _ _ _ _ => some u | _ => none)

/-- Number of blits among some effects. -/
def blitCount (l : List Effect) : Nat := (blitUIDs l).length

/-- Number of published notifications (element-enabled, element-disabled,
image-rendered) among some effects. -/
def notificationCount (l : List Effect) : Nat :=
  (l.filter (fun e => match e with
    | Effect.elementEnabled _ => true
    | Effect.elementDisabled _ => true
    | Effect.imageRendered _ => true
    | _ => false)).length

/-- Concatenation of per-request effect lists. -/
def concatEffects (l : List (List Effect)) : List Effect :=
  l.foldr (fun a b => a ++ b) []

/-- Expected scheduling pattern of a request sequence: given whether the dirty
set is currently empty and the uid list of each request in order, the number
of callbacks each request schedules — zero until the first request that makes
the dirty set non-empty, one there, zero afterwards. -/
def schedulePatternFrom : Bool → List (List String) → List Nat
  | _, [] => []
  | false, _ :: rest => 0 :: schedulePatternFrom false rest
  | true, uids :: rest =>
    if uids.isEmpty then 0 :: schedulePatternFrom true rest
    else 1 :: schedulePatternFrom false rest

/-- Written from the spec (section 4.1), for the refinement comparison only:
left-to-right single-row packing of a list of output-surface (width, height)
dimensions starting at a given x offset — each source rectangle sits at the
running sum of the preceding widths, at y zero, sized by its own dimensions. -/
def specLayoutRectsFrom (x : Nat) : List (Nat × Nat) → List (Nat × Nat × Nat × Nat)
  | [] => []
  | (w, h) :: rest => (x, 0, w, h) :: specLayoutRectsFrom (x + w) rest

/-- Written from the spec: the packing of a dimension list from offset zero. -/
def specLayoutRects (dims : List (Nat × Nat)) : List (Nat × Nat × Nat × Nat) :=
  specLayoutRectsFrom 0 dims

/-- Written from the spec: shared-surface width, the sum of the output
widths. -/
def specSharedWidth (dims : List (Nat × Nat)) : Nat :=
  (dims.map Prod.fst).sum

/-- Written from the spec: shared-surface height, the maximum of the output
heights (negative infinity when there are none, as Math.max has it). -/
def specSharedHeight (dims : List (Nat × Nat)) : JsNum :=
  jsMathMax (dims.map Prod.snd)

/-- Maximum of a list of naturals (zero for the empty list). -/
def natListMax (l : List Nat) : Nat :=
  l.foldl (fun a b => max a b) 0

/-- Characterization of the viewports the setViewports loop creates from a
given running offset, used to relate the loop accumulator to the packing. -/
def createdFrom (x : Nat) : List ViewportInput → List Viewport
  | [] => []
  | d :: rest =>
    let c := syncCanvas d.canvas
    { uid := d.viewportUID, sceneUID := d.sceneUID, canvas := c,
      sx := x, sy := 0, sWidth := c.width, sHeight := c.height }
      :: createdFrom (x + c.width) rest

/-- Characterization of the renderer slots the setViewports loop registers
from a given running offset. -/
def renderersFrom (W : Nat) (Hq : ℚ) (x : Nat) : List ViewportInput → List RendererEntry
  | [] => []
  | d :: rest =>
    let c := syncCanvas d.canvas
    { uid := d.viewportUID,
      rect := normalizedRect W Hq x 0 c.width c.height,
      background := d.background.getD (0, 0, 0) }
      :: renderersFrom W Hq (x + c.width) rest

/-- The source rectangle of a viewport, as a tuple. -/
def sourceRect (v : Viewport) : Nat × Nat × Nat × Nat :=
  (v.sx, v.sy, v.sWidth, v.sHeight)

/-- The client dimensions of a viewport's output canvas. -/
def clientDims (v : Viewport) : Nat × Nat :=
  (v.canvas.clientWidth, v.canvas.clientHeight)

/-- The client dimensions of a descriptor's output canvas. -/
def inputDims (d : ViewportInput) : Nat × Nat :=
  (d.canvas.clientWidth, d.canvas.clientHeight)

/-- Concrete fixture: a 400 by 300 output canvas with an unsized buffer. -/
def canvasA : Canvas := { clientWidth := 400, clientHeight := 300, width := 0, height := 0 }

/-- Concrete fixture: a 200 by 300 output canvas with an unsized buffer. -/
def canvasB : Canvas := { clientWidth := 200, clientHeight := 300, width := 0, height := 0 }

/-- Concrete fixture: descriptor of viewport A in scene s1. -/
def inputA : ViewportInput :=
  { canvas := canvasA, sceneUID := "s1", viewportUID := "A", type := "ORTHOGRAPHIC",
    background := none }

/-- Concrete fixture: descriptor of viewport B in scene s1. -/
def inputB : ViewportInput :=
  { canvas := canvasB, sceneUID := "s1", viewportUID := "B", type := "ORTHOGRAPHIC",
    background := none }

/-- Concrete fixture: an engine configured with viewports A and B. -/
def engineTwoVP : EngineState :=
  (setViewportsOp (initialEngine "engine") [inputA, inputB]).state

/-- Concrete fixture: the configured engine after a render request for all
viewports, so a flush callback is scheduled and A and B are dirty. -/
def engineTwoVPPending : EngineState := (renderOp engineTwoVP).state

/-- Concrete fixture: the configured engine after destroy. -/
def engineDestroyed : EngineState := (destroyOp engineTwoVP).state

/-- No re-entrant render requests from any image-rendered subscriber. -/
def noReentrant : String → List (List String) := fun _ => []

/-- Concrete re-entrant behavior: the image-rendered subscriber of viewport B
requests a render of viewport A. -/
def reentrantRequestAOnB : String → List (List String) :=
  fun u => if u == "B" then [["A"]] else []

/-- Concrete fixture: a render-request sequence exercising three entry points,
including a trailing empty request. -/
def requestSeq : List RenderRequest :=
  [RenderRequest.renderViewports ["A"], RenderRequest.render,
   RenderRequest.renderScene "s1", RenderRequest.renderViewports []]

/-- Placeholder viewport for list indexing with getD. -/
def dummyViewport : Viewport :=
  { uid := "", sceneUID := "",
    canvas := { clientWidth := 0, clientHeight := 0, width := 0, height := 0 },
    sx := 0, sy := 0, sWidth := 0, sHeight := 0 }

/-- Placeholder renderer slot for list indexing with getD. -/
def dummyRenderer : RendererEntry :=
  { uid := "", rect := (0, 0, 0, 0), background := (0, 0, 0) }

/-- The scheduling invariant: the frame-scheduled flag is set exactly when a
callback handle is held. -/
def schedInv (s : EngineState) : Prop :=
  s.animationFrameSet = true ↔ s.animationFrameHandle ≠ none

theorem schedInv_render (s : EngineState) (h : schedInv s) : schedInv (_render s).1 := by
  unfold _render
  split
  · simp [schedInv]
  · exact h

theorem schedInv_setVPNF (s : EngineState) (uids : List String) (h : schedInv s) :
    schedInv (_setViewportsToBeRenderedNextFrame s uids).1 :=
  schedInv_render _ h

theorem schedInv_reentrantFold (calls : List (List String)) (s : EngineState)
    (e : List Effect) (h : schedInv s) :
    schedInv ((calls.foldl (fun acc uids =>
      let q := _setViewportsToBeRenderedNextFrame acc.1 uids
      (q.1, acc.2 ++ q.2)) (s, e)).1) := by
  induction calls generalizing s e with
  | nil => exact h
  | cons c cs ih => exact ih _ _ (schedInv_setVPNF s c h)

theorem schedInv_flushVisit (re : String → List (List String)) (s : EngineState)
    (v : Viewport) (h : schedInv s) : schedInv (flushViewportVisit re s v).1 := by
  simp only [flushViewportVisit]
  split
  · split
    · simp [schedInv]
    · exact schedInv_reentrantFold (re v.uid) s [] h
  · exact h

theorem schedInv_flushVisitMany (re : String → List (List String)) (vs : List Viewport)
    (s : EngineState) (h : schedInv s) : schedInv (flushVisitMany re s vs).1 := by
  induction vs generalizing s with
  | nil => exact h
  | cons v vs ih => exact ih _ (schedInv_flushVisit re s v h)

theorem schedInv_reset (s : EngineState) : schedInv (_reset s).1 := by
  simp [schedInv, _reset]

theorem schedInv_step (s : EngineState) (st : Step) (h : schedInv s) :
    schedInv (applyStep s st).state := by
  cases st with
  | setViewports vps =>
    simp only [applyStep, setViewportsOp]
    split
    · exact h
    · have h2 := schedInv_reset s
      simpa [schedInv] using h2
  | resize =>
    simp only [applyStep, resizeOp]
    split
    · exact h
    · simp only [renderOp]
      split
      · exact h
      · exact schedInv_setVPNF _ _ h
  | getScene uid =>
    simp only [applyStep, getSceneOp]
    split <;> exact h
  | getScenes =>
    simp only [applyStep, getScenesOp]
    split <;> exact h
  | getViewports =>
    simp only [applyStep, getViewportsOp]
    split <;> exact h
  | render =>
    simp only [applyStep, renderOp]
    split
    · exact h
    · exact schedInv_setVPNF _ _ h
  | renderScene uid =>
    simp only [applyStep, renderSceneOp]
    split
    · exact h
    · split
      · exact h
      · exact schedInv_setVPNF _ _ h
  | renderScenes uids =>
    simp only [applyStep, renderScenesOp]
    split
    · exact h
    · split
      · exact h
      · simp only [_renderScenes]
        split
        · exact h
        · exact schedInv_setVPNF _ _ h
  | renderFrameOfReference tag =>
    simp only [applyStep, renderFrameOfReferenceOp, _renderScenes]
    split
    · exact h
    · exact schedInv_setVPNF _ _ h
  | renderViewports uids =>
    exact schedInv_setVPNF _ _ h
  | renderViewport sceneUID viewportUID =>
    exact schedInv_setVPNF _ _ h
  | destroy =>
    simp only [applyStep, destroyOp]
    split
    · exact h
    · have h2 := schedInv_reset s
      simpa [schedInv] using h2
  | fireCallback ok reentrant =>
    simp only [applyStep, _renderFlaggedViewports]
    split
    · exact h
    · split
      · exact h
      · exact schedInv_flushVisitMany _ _ _ h

theorem schedInv_runSteps (steps : List Step) (s : EngineState) (h : schedInv s) :
    schedInv (runSteps s steps) := by
  induction steps generalizing s with
  | nil => exact h
  | cons st steps ih => exact ih _ (schedInv_step s st h)

/-- Claim C10: in every state reachable by public operations and callback
firings, the frame-scheduled flag is true exactly when the scheduled-callback
handle is non-null. -/
theorem claimC10_flag_iff_handle (s : EngineState) (h : reachableEngine s) :
    s.animationFrameSet = true ↔ s.animationFrameHandle ≠ none := by
  obtain ⟨uid, steps, rfl⟩ := h
  exact schedInv_runSteps steps (initialEngine uid) (by simp [schedInv, initialEngine])

/-- Witness for claim C10 at the concrete two-viewport engine with a pending
flush, reached by a setViewports step and a render step. -/
theorem claimC10_flag_iff_handle_witness :
    engineTwoVPPending.animationFrameSet = true ↔
      engineTwoVPPending.animationFrameHandle ≠ none :=
  claimC10_flag_iff_handle engineTwoVPPending
    ⟨"engine", [Step.setViewports [inputA, inputB], Step.render], rfl⟩

/-- Claim C9, counterexample: setViewports with an empty descriptor list sets
the shared-surface height to negative infinity (Math.max of no arguments), not
to zero as the claim states. -/
theorem claimC9_counterexample_empty_config_height :
    (setViewportsOp (initialEngine "engine") []).state.containerHeight = JsNum.negInf ∧
    JsNum.negInf ≠ JsNum.num 0 := by decide

/-- Claim C9 as amended: setViewports with an empty descriptor list succeeds,
yields no scenes and no viewports and a shared surface of width zero, but its
height is negative infinity rather than zero. -/
theorem claimC9_amended_empty_config :
    (setViewportsOp (initialEngine "engine") []).error = none ∧
    (setViewportsOp (initialEngine "engine") []).state.containerWidth = 0 ∧
    (setViewportsOp (initialEngine "engine") []).state.containerHeight = JsNum.negInf ∧
    (setViewportsOp (initialEngine "engine") []).state.scenes = [] ∧
    getViewportsList (setViewportsOp (initialEngine "engine") []).state = [] := by decide

/-- Claim C4, counterexample: on a destroyed engine, renderViewports and
renderViewport return without raising any error (and even mutate the dirty
set), contradicting the claim that every public operation fails after
destroy. -/
theorem claimC4_counterexample_renderViewports_after_destroy :
    engineDestroyed.hasBeenDestroyed = true ∧
    (renderViewportsOp engineDestroyed ["A"]).error = none ∧
    (renderViewportOp engineDestroyed "s1" "A").error = none ∧
    (renderViewportsOp engineDestroyed ["A"]).state.needsRender = ["A"] := by decide

/-- Claim C4 as amended: once destroyed, setViewports, resize, getScene,
getScenes, getViewports, render, renderScene, renderScenes and
renderFrameOfReference all fail with the use-after-destroy error, while
renderViewports and renderViewport do not raise (their failure only surfaces
later, when the scheduled callback fires); a second destroy is a no-op that
returns the state unchanged without raising. -/
theorem claimC4_amended_destroyed_ops (s : EngineState)
    (h : s.hasBeenDestroyed = true) (inputs : List ViewportInput)
    (sceneUID viewportUID tag : String) (sceneUIDs viewportUIDs : List String) :
    (setViewportsOp s inputs).error = some EngineError.useAfterDestroy ∧
    (resizeOp s).error = some EngineError.useAfterDestroy ∧
    (getSceneOp s sceneUID).error = some EngineError.useAfterDestroy ∧
    (getScenesOp s).error = some EngineError.useAfterDestroy ∧
    (getViewportsOp s).error = some EngineError.useAfterDestroy ∧
    (renderOp s).error = some EngineError.useAfterDestroy ∧
    (renderSceneOp s sceneUID).error = some EngineError.useAfterDestroy ∧
    (renderScenesOp s sceneUIDs).error = some EngineError.useAfterDestroy ∧
    (renderFrameOfReferenceOp s tag).error = some EngineError.useAfterDestroy ∧
    (renderViewportsOp s viewportUIDs).error = none ∧
    (renderViewportOp s sceneUID viewportUID).error = none ∧
    destroyOp s = ⟨s, [], none⟩ := by
  refine ⟨?_, ?_, ?_, ?_, ?_, ?_, ?_, ?_, ?_, ?_, ?_, ?_⟩
  · simp [setViewportsOp, h]
  · simp [resizeOp, h]
  · simp [getSceneOp, h]
  · simp [getScenesOp, h]
  · simp [getViewportsOp, h]
  · simp [renderOp, h]
  · simp [renderSceneOp, h]
  · rcases sceneUIDs with _ | ⟨u, us⟩
    · simp [renderScenesOp, _renderScenes, h]
    · simp [renderScenesOp, h]
  · simp [renderFrameOfReferenceOp, _renderScenes, h]
  · simp [renderViewportsOp]
  · simp [renderViewportOp]
  · simp [destroyOp, h]

/-- Witness for the amended claim C4 at the concrete destroyed engine. -/
theorem claimC4_amended_destroyed_ops_witness :
    (setViewportsOp engineDestroyed [inputA]).error = some EngineError.useAfterDestroy ∧
    (resizeOp engineDestroyed).error = some EngineError.useAfterDestroy ∧
    (getSceneOp engineDestroyed "s1").error = some EngineError.useAfterDestroy ∧
    (getScenesOp engineDestroyed).error = some EngineError.useAfterDestroy ∧
    (getViewportsOp engineDestroyed).error = some EngineError.useAfterDestroy ∧
    (renderOp engineDestroyed).error = some EngineError.useAfterDestroy ∧
    (renderSceneOp engineDestroyed "s1").error = some EngineError.useAfterDestroy ∧
    (renderScenesOp engineDestroyed ["s1"]).error = some EngineError.useAfterDestroy ∧
    (renderFrameOfReferenceOp engineDestroyed "F").error = some EngineError.useAfterDestroy ∧
    (renderViewportsOp engineDestroyed ["A"]).error = none ∧
    (renderViewportOp engineDestroyed "s1" "A").error = none ∧
    destroyOp engineDestroyed = ⟨engineDestroyed, [], none⟩ :=
  claimC4_amended_destroyed_ops engineDestroyed (by decide) [inputA] "s1" "A" "F" ["s1"] ["A"]

/-- Claim C7, counterexample: a stale callback firing after destroy raises the
use-after-destroy error, contradicting the claim that the callback is a silent
no-op with no error even after a destroy. -/
theorem claimC7_counterexample_stale_callback_after_destroy :
    engineDestroyed.hasBeenDestroyed = true ∧
    (_renderFlaggedViewports true noReentrant engineDestroyed).error
      = some EngineError.useAfterDestroy := by decide

/-- Claim C7 as amended: reset cancels the scheduled callback through its
handle and clears the dirty set and the frame-scheduled flag; a stale callback
that still fires after a reset performs no blit, publishes no notification and
raises no error — but after a destroy the stale callback raises the
use-after-destroy error instead of being silent. -/
theorem claimC7_amended_reset_cancellation (s : EngineState)
    (h : s.hasBeenDestroyed = false) (reentrant : String → List (List String)) :
    (_reset s).1.needsRender = [] ∧
    (_reset s).1.animationFrameSet = false ∧
    (_reset s).1.animationFrameHandle = none ∧
    Effect.cancelCallback s.animationFrameHandle ∈ (_reset s).2 ∧
    (_renderFlaggedViewports true reentrant (_reset s).1).error = none ∧
    blitCount (_renderFlaggedViewports true reentrant (_reset s).1).effects = 0 ∧
    notificationCount (_renderFlaggedViewports true reentrant (_reset s).1).effects = 0 ∧
    (_renderFlaggedViewports true reentrant (destroyOp s).state).error
      = some EngineError.useAfterDestroy := by
  refine ⟨rfl, rfl, rfl, ?_, ?_, ?_, ?_, ?_⟩
  · simp [_reset]
  · simp [_renderFlaggedViewports, _reset, h]
  · simp [_renderFlaggedViewports, _reset, h, getViewportsList, flatViewports,
      flushVisitMany, blitCount, blitUIDs]
  · simp [_renderFlaggedViewports, _reset, h, getViewportsList, flatViewports,
      flushVisitMany, notificationCount]
  · simp [destroyOp, _renderFlaggedViewports, _reset, h]

/-- Witness for the amended claim C7 at the concrete engine with a pending
flush. -/
theorem claimC7_amended_reset_cancellation_witness :
    (_reset engineTwoVPPending).1.needsRender = [] ∧
    (_reset engineTwoVPPending).1.animationFrameSet = false ∧
    (_reset engineTwoVPPending).1.animationFrameHandle = none ∧
    Effect.cancelCallback engineTwoVPPending.animationFrameHandle
      ∈ (_reset engineTwoVPPending).2 ∧
    (_renderFlaggedViewports true noReentrant (_reset engineTwoVPPending).1).error = none ∧
    blitCount (_renderFlaggedViewports true noReentrant
      (_reset engineTwoVPPending).1).effects = 0 ∧
    notificationCount (_renderFlaggedViewports true noReentrant
      (_reset engineTwoVPPending).1).effects = 0 ∧
    (_renderFlaggedViewports true noReentrant
      (destroyOp engineTwoVPPending).state).error = some EngineError.useAfterDestroy :=
  claimC7_amended_reset_cancellation engineTwoVPPending (by decide) noReentrant

/-- Claim C8, counterexample: after a flush aborted by a failing shared-surface
render pass, the dirty set is unchanged as the claim says, but a subsequent
render request schedules no new callback (the frame-scheduled flag was never
cleared), so the flush is never retried. -/
theorem claimC8_counterexample_no_retry_after_failed_pass :
    engineTwoVPPending.needsRender = ["A", "B"] ∧
    engineTwoVPPending.animationFrameSet = true ∧
    (_renderFlaggedViewports false noReentrant engineTwoVPPending).error
      = some EngineError.renderPassFailure ∧
    blitCount (_renderFlaggedViewports false noReentrant engineTwoVPPending).effects = 0 ∧
    (_renderFlaggedViewports false noReentrant engineTwoVPPending).state.needsRender
      = ["A", "B"] ∧
    scheduleCount (renderViewportsOp
      (_renderFlaggedViewports false noReentrant engineTwoVPPending).state ["A"]).effects
      = 0 ∧
    scheduleCount (renderOp
      (_renderFlaggedViewports false noReentrant engineTwoVPPending).state).effects
      = 0 := by decide

/-- Claim C8 as amended: a synchronous error of the shared-surface render pass
aborts the flush with no blit and the whole engine state (dirty set included)
exactly as at flush start; but since the frame-scheduled flag is left set, a
subsequent render request schedules no new callback and the flush is not
retried. -/
theorem claimC8_amended_failed_pass_aborts (s : EngineState)
    (h : s.hasBeenDestroyed = false)
    (reentrant : String → List (List String)) (uids : List String) :
    _renderFlaggedViewports false reentrant s
      = ⟨s, [], some EngineError.renderPassFailure⟩ ∧
    (s.animationFrameSet = true →
      scheduleCount (renderViewportsOp s uids).effects = 0 ∧
      scheduleCount (renderOp s).effects = 0) := by
  constructor
  · simp [_renderFlaggedViewports, h]
  · intro hset
    constructor
    · simp [renderViewportsOp, _setViewportsToBeRenderedNextFrame, _render, hset,
        scheduleCount]
    · simp [renderOp, h, _setViewportsToBeRenderedNextFrame, _render, hset,
        scheduleCount]

/-- Witness for the amended claim C8 at the concrete engine with a pending
flush. -/
theorem claimC8_amended_failed_pass_aborts_witness :
    _renderFlaggedViewports false noReentrant engineTwoVPPending
      = ⟨engineTwoVPPending, [], some EngineError.renderPassFailure⟩ ∧
    (engineTwoVPPending.animationFrameSet = true →
      scheduleCount (renderViewportsOp engineTwoVPPending ["A"]).effects = 0 ∧
      scheduleCount (renderOp engineTwoVPPending).effects = 0) :=
  claimC8_amended_failed_pass_aborts engineTwoVPPending (by decide) noReentrant ["A"]

/-- Claim C3, evaluating the code at the failing input: with viewports A and B
dirty and a flush in progress, a render request for A issued during B's
image-rendered notification (after A's own blit) is dropped — A and B are
blitted, no callback is scheduled during the flush, and the flush ends with A
still dirty and the frame-scheduled flag still set, so every subsequent render
request (for A or for all viewports) schedules nothing and A is never blitted
again. -/
theorem claimC3_reentrant_request_dropped :
    engineTwoVPPending.needsRender = ["A", "B"] ∧
    blitUIDs (_renderFlaggedViewports true reentrantRequestAOnB engineTwoVPPending).effects
      = ["A", "B"] ∧
    scheduleCount
      (_renderFlaggedViewports true reentrantRequestAOnB engineTwoVPPending).effects = 0 ∧
    (_renderFlaggedViewports true reentrantRequestAOnB engineTwoVPPending).state.needsRender
      = ["A"] ∧
    (_renderFlaggedViewports true reentrantRequestAOnB
      engineTwoVPPending).state.animationFrameSet = true ∧
    scheduleCount (renderViewportOp
      (_renderFlaggedViewports true reentrantRequestAOnB engineTwoVPPending).state
      "s1" "A").effects = 0 ∧
    blitCount (renderViewportOp
      (_renderFlaggedViewports true reentrantRequestAOnB engineTwoVPPending).state
      "s1" "A").effects = 0 ∧
    scheduleCount (renderOp
      (_renderFlaggedViewports true reentrantRequestAOnB engineTwoVPPending).state).effects
      = 0 := by decide

end Cornerstone

namespace Cornerstone

theorem jsSetDelete_mem (l : List String) (x y : String) :
    y ∈ jsSetDelete l x ↔ (y ∈ l ∧ y ≠ x) := by
  simp [jsSetDelete]

theorem flushVisit_pure_not_dirty (s : EngineState) (v : Viewport)
    (h : v.uid ∉ s.needsRender) : flushViewportVisit noReentrant s v = (s, []) := by
  simp [flushViewportVisit, h]

theorem flushVisit_pure_dirty (s : EngineState) (v : Viewport)
    (h : v.uid ∈ s.needsRender) :
    (flushViewportVisit noReentrant s v).1.needsRender
        = jsSetDelete s.needsRender v.uid ∧
    (flushViewportVisit noReentrant s v).2
        = [Effect.blit v.uid v.sx v.sy v.sWidth v.sHeight v.canvas.width v.canvas.height,
           Effect.imageRendered v.uid] := by
  simp only [flushViewportVisit, noReentrant, List.foldl_nil, _renderViewportToCanvas,
    if_pos h]
  split <;> simp

theorem flushVisitMany_pure_spec (vs : List Viewport) (s : EngineState)
    (hnodup : (vs.map Viewport.uid).Nodup) :
    blitUIDs (flushVisitMany noReentrant s vs).2
      = (vs.map Viewport.uid).filter (fun u => decide (u ∈ s.needsRender)) ∧
    (∀ x, x ∈ (flushVisitMany noReentrant s vs).1.needsRender
      ↔ (x ∈ s.needsRender ∧ x ∉ vs.map Viewport.uid)) := by
  induction vs generalizing s with
  | nil => simp [flushVisitMany, blitUIDs]
  | cons v vs ih =>
    simp only [List.map_cons, List.nodup_cons] at hnodup
    by_cases hd : v.uid ∈ s.needsRender
    · have hvisit := flushVisit_pure_dirty s v hd
      have ihspec := ih (flushViewportVisit noReentrant s v).1 hnodup.2
      constructor
      · simp only [flushVisitMany, blitUIDs, List.filterMap_append, hvisit.2]
        have hmem : ∀ u ∈ vs.map Viewport.uid,
            (decide (u ∈ (flushViewportVisit noReentrant s v).1.needsRender))
              = (decide (u ∈ s.needsRender)) := by
          intro u hu
          have hne : u ≠ v.uid := fun heq => hnodup.1 (heq ▸ hu)
          simp [hvisit.1, jsSetDelete_mem, hne]
        have := ihspec.1
        simp only [blitUIDs] at this
        rw [this, List.filter_congr hmem]
        simp [List.map_cons, List.filter_cons, hd]
      · intro x
        rw [show (flushVisitMany noReentrant s (v :: vs)).1
              = (flushVisitMany noReentrant (flushViewportVisit noReentrant s v).1 vs).1
            from rfl]
        rw [ihspec.2 x, hvisit.1, jsSetDelete_mem]
        simp only [List.map_cons, List.mem_cons]
        constructor
        · rintro ⟨⟨hx, hxne⟩, hnotin⟩
          exact ⟨hx, by rintro (rfl | hin) <;> [exact hxne rfl; exact hnotin hin]⟩
        · rintro ⟨hx, hnotin⟩
          exact ⟨⟨hx, fun heq => hnotin (Or.inl heq)⟩, fun hin => hnotin (Or.inr hin)⟩
    · have hvisit := flushVisit_pure_not_dirty s v hd
      have ihspec := ih (flushViewportVisit noReentrant s v).1 hnodup.2
      rw [hvisit] at ihspec
      constructor
      · simp only [flushVisitMany, hvisit, blitUIDs, List.filterMap_append]
        have := ihspec.1
        simp only [blitUIDs] at this
        rw [this]
        simp [List.filter_cons, hd]
      · intro x
        rw [show (flushVisitMany noReentrant s (v :: vs)).1
              = (flushVisitMany noReentrant (flushViewportVisit noReentrant s v).1 vs).1
            from rfl]
        rw [hvisit]
        rw [ihspec.2 x]
        simp only [List.map_cons, List.mem_cons]
        constructor
        · rintro ⟨hx, hnotin⟩
          refine ⟨hx, ?_⟩
          rintro (rfl | hin)
          · exact hd hx
          · exact hnotin hin
        · rintro ⟨hx, hnotin⟩
          exact ⟨hx, fun hin => hnotin (Or.inr hin)⟩

/-- Claim C2: during one flush (with no re-entrant requests), exactly the
viewports dirty at flush start are blitted, once each, in flattened scene then
viewport order, and after visiting any prefix of the viewport list the dirty
set is exactly the flush-start dirty set minus the uids already visited (each
id removed immediately after its blit). -/
theorem claimC2_flush_order_and_removal (s : EngineState)
    (hd : s.hasBeenDestroyed = false)
    (hnodup : ((getViewportsList s).map Viewport.uid).Nodup) :
    (_renderFlaggedViewports true noReentrant s).error = none ∧
    blitUIDs (_renderFlaggedViewports true noReentrant s).effects
      = ((getViewportsList s).map Viewport.uid).filter
          (fun u => decide (u ∈ s.needsRender)) ∧
    (∀ k x,
      x ∈ (flushVisitMany noReentrant s ((getViewportsList s).take k)).1.needsRender
        ↔ (x ∈ s.needsRender ∧ x ∉ ((getViewportsList s).take k).map Viewport.uid)) := by
  refine ⟨?_, ?_, ?_⟩
  · simp [_renderFlaggedViewports, hd]
  · have hspec := flushVisitMany_pure_spec (getViewportsList s) s hnodup
    simp only [_renderFlaggedViewports, hd, Bool.false_eq_true, if_false,
      Bool.true_eq_false]
    simp only [blitUIDs, List.filterMap_cons]
    have := hspec.1
    simp only [blitUIDs] at this
    simpa using this
  · intro k x
    have hnodupk : (((getViewportsList s).take k).map Viewport.uid).Nodup := by
      rw [List.map_take]
      exact hnodup.sublist (List.take_sublist k _)
    exact (flushVisitMany_pure_spec ((getViewportsList s).take k) s hnodupk).2 x

/-- Witness for claim C2 at the concrete engine with A and B dirty. -/
theorem claimC2_flush_order_and_removal_witness :
    (_renderFlaggedViewports true noReentrant engineTwoVPPending).error = none ∧
    blitUIDs (_renderFlaggedViewports true noReentrant engineTwoVPPending).effects
      = ((getViewportsList engineTwoVPPending).map Viewport.uid).filter
          (fun u => decide (u ∈ engineTwoVPPending.needsRender)) ∧
    (∀ k x,
      x ∈ (flushVisitMany noReentrant engineTwoVPPending
            ((getViewportsList engineTwoVPPending).take k)).1.needsRender
        ↔ (x ∈ engineTwoVPPending.needsRender ∧
           x ∉ ((getViewportsList engineTwoVPPending).take k).map Viewport.uid)) :=
  claimC2_flush_order_and_removal engineTwoVPPending (by decide) (by decide)

end Cornerstone

namespace Cornerstone

theorem jsSetAdd_mem (l : List String) (x y : String) :
    y ∈ jsSetAdd l x ↔ (y ∈ l ∨ y = x) := by
  simp only [jsSetAdd]
  split
  · rename_i h
    constructor
    · exact Or.inl
    · rintro (hy | rfl)
      · exact hy
      · exact h
  · simp [List.mem_append]

theorem jsSetAddAll_mem (l : List String) (xs : List String) (y : String) :
    y ∈ jsSetAddAll l xs ↔ (y ∈ l ∨ y ∈ xs) := by
  induction xs generalizing l with
  | nil => simp [jsSetAddAll]
  | cons x xs ih =>
    simp only [jsSetAddAll, List.foldl_cons] at ih ⊢
    rw [ih (jsSetAdd l x), jsSetAdd_mem]
    simp only [List.mem_cons]
    tauto

theorem jsSetAdd_ne_nil (l : List String) (x : String) : jsSetAdd l x ≠ [] := by
  simp only [jsSetAdd]
  split
  · rename_i h
    exact List.ne_nil_of_mem h
  · simp

theorem jsSetAddAll_eq_nil_iff (l : List String) (xs : List String) :
    jsSetAddAll l xs = [] ↔ (l = [] ∧ xs = []) := by
  induction xs generalizing l with
  | nil => simp [jsSetAddAll]
  | cons x xs ih =>
    simp only [jsSetAddAll, List.foldl_cons] at ih ⊢
    rw [ih (jsSetAdd l x)]
    simp [jsSetAdd_ne_nil l x]

theorem findScene_congr (s t : EngineState) (h : s.scenes = t.scenes) :
    findScene s = findScene t := by
  funext u
  simp [findScene, h]

theorem requestUIDs_congr (s t : EngineState) (h : s.scenes = t.scenes)
    (r : RenderRequest) : requestUIDs s r = requestUIDs t r := by
  cases r <;> simp [requestUIDs, getViewportsList, h, findScene_congr s t h]

theorem requestOk_congr (s t : EngineState) (h : s.scenes = t.scenes)
    (r : RenderRequest) : requestOk s r = requestOk t r := by
  cases r <;> simp [requestOk, findScene_congr s t h]

theorem setVPNF_state (s : EngineState) (uids : List String) :
    (_setViewportsToBeRenderedNextFrame s uids).1.scenes = s.scenes ∧
    (_setViewportsToBeRenderedNextFrame s uids).1.hasBeenDestroyed = s.hasBeenDestroyed ∧
    (_setViewportsToBeRenderedNextFrame s uids).1.needsRender
      = jsSetAddAll s.needsRender uids := by
  simp only [_setViewportsToBeRenderedNextFrame, _render]
  split <;> simp

theorem setVPNF_flag_count (s : EngineState) (uids : List String)
    (hflag : s.animationFrameSet = !s.needsRender.isEmpty) :
    (_setViewportsToBeRenderedNextFrame s uids).1.animationFrameSet
      = !(jsSetAddAll s.needsRender uids).isEmpty ∧
    scheduleCount (_setViewportsToBeRenderedNextFrame s uids).2
      = (if s.needsRender = [] ∧ jsSetAddAll s.needsRender uids ≠ []
         then 1 else 0) := by
  have hA := jsSetAddAll_eq_nil_iff s.needsRender uids
  simp only [_setViewportsToBeRenderedNextFrame, _render]
  split
  case isTrue h =>
    have hAne : jsSetAddAll s.needsRender uids ≠ [] := by
      intro he
      rw [he] at h
      simp at h
    have hnr : s.needsRender = [] := by
      by_contra hc
      rw [hflag] at h
      rcases h with ⟨-, h2⟩
      simp [List.isEmpty_iff, hc] at h2
    constructor
    · simp [List.isEmpty_iff, hAne]
    · rw [hnr] at hAne
      simp [scheduleCount, hnr, hAne]
  case isFalse h =>
    by_cases hAe : jsSetAddAll s.needsRender uids = []
    · have hnr : s.needsRender = [] := (hA.mp hAe).1
      rw [hnr] at hAe
      constructor
      · simp [List.isEmpty_iff, hAe, hflag, hnr]
      · simp [scheduleCount, hnr, hAe]
    · have hfl : s.animationFrameSet = true := by
        by_contra hc
        have hfalse : s.animationFrameSet = false := by
          revert hc
          cases s.animationFrameSet <;> simp
        apply h
        constructor
        · simpa [List.length_pos] using hAe
        · exact hfalse
      have hnr : s.needsRender ≠ [] := by
        intro he
        rw [hflag, he] at hfl
        simp at hfl
      constructor
      · simp [List.isEmpty_iff, hAe, hfl]
      · simp [scheduleCount, hnr]

theorem applyRequest_eq (s : EngineState) (r : RenderRequest)
    (hd : s.hasBeenDestroyed = false) (hok : requestOk s r = true) :
    applyRequest s r
      = ⟨(_setViewportsToBeRenderedNextFrame s (requestUIDs s r)).1,
         (_setViewportsToBeRenderedNextFrame s (requestUIDs s r)).2, none⟩ := by
  cases r with
  | render => simp [applyRequest, renderOp, hd, requestUIDs]
  | renderScene uid =>
    simp only [requestOk] at hok
    obtain ⟨sc, hsc⟩ := Option.isSome_iff_exists.mp hok
    simp [applyRequest, renderSceneOp, hd, requestUIDs, hsc]
  | renderScenes uids =>
    simp only [requestOk, List.all_eq_true] at hok
    have hany : ((uids.map (findScene s)).any (fun o => o.isNone)) = false := by
      simp only [List.any_eq_false, List.mem_map]
      rintro o ⟨u, hu, rfl⟩
      have h2 := hok u hu
      simp_all [Option.isNone_iff_eq_none, Option.isSome_iff_ne_none]
    simp [applyRequest, renderScenesOp, hd, hany, _renderScenes, requestUIDs]
  | renderFrameOfReference tag =>
    simp [applyRequest, renderFrameOfReferenceOp, _renderScenes, hd, requestUIDs]
  | renderViewports uids => simp [applyRequest, renderViewportsOp, requestUIDs]
  | renderViewport a b => simp [applyRequest, renderViewportOp, requestUIDs]

theorem schedulePatternFrom_nil (b : Bool) : schedulePatternFrom b [] = [] := by
  cases b <;> rfl

theorem isEmpty_false_of_ne_nil (l : List String) (h : l ≠ []) : l.isEmpty = false := by
  cases l with
  | nil => exact absurd rfl h
  | cons a l => rfl

theorem runRequests_spec (s0 : EngineState) (reqs : List RenderRequest) :
    ∀ s : EngineState, s.scenes = s0.scenes → s.hasBeenDestroyed = false →
      s.animationFrameSet = !s.needsRender.isEmpty →
      (∀ r ∈ reqs, requestOk s0 r = true) →
      (runRequests s reqs).1.scenes = s0.scenes ∧
      (runRequests s reqs).1.hasBeenDestroyed = false ∧
      (runRequests s reqs).1.needsRender
        = reqs.foldl (fun nr r => jsSetAddAll nr (requestUIDs s0 r)) s.needsRender ∧
      (runRequests s reqs).1.animationFrameSet
        = !(runRequests s reqs).1.needsRender.isEmpty ∧
      ((runRequests s reqs).2).map scheduleCount
        = schedulePatternFrom s.needsRender.isEmpty (reqs.map (requestUIDs s0)) := by
  induction reqs with
  | nil =>
    intro s h1 h2 h3 _
    exact ⟨h1, h2, rfl, h3, (schedulePatternFrom_nil _).symm⟩
  | cons r rest ih =>
    intro s h1 h2 h3 hok
    have hokr : requestOk s r = true := by
      rw [requestOk_congr s s0 h1]
      exact hok r (List.mem_cons_self r rest)
    have happ := applyRequest_eq s r h2 hokr
    have huid : requestUIDs s r = requestUIDs s0 r := requestUIDs_congr s s0 h1 r
    have hstate := setVPNF_state s (requestUIDs s r)
    have hfc := setVPNF_flag_count s (requestUIDs s r) h3
    rw [huid] at happ hstate hfc
    have ihspec := ih (_setViewportsToBeRenderedNextFrame s (requestUIDs s0 r)).1
      (by rw [hstate.1, h1]) (by rw [hstate.2.1, h2])
      (by rw [hfc.1, hstate.2.2])
      (fun r2 hr2 => hok r2 (List.mem_cons_of_mem r hr2))
    simp only [runRequests, happ]
    refine ⟨ihspec.1, ihspec.2.1, ?_, ihspec.2.2.2.1, ?_⟩
    · rw [ihspec.2.2.1, List.foldl_cons, hstate.2.2]
    · simp only [List.map_cons]
      rw [ihspec.2.2.2.2, hstate.2.2]
      by_cases hnr : s.needsRender = []
      · by_cases hu : requestUIDs s0 r = []
        · have hAe : jsSetAddAll s.needsRender (requestUIDs s0 r) = [] := by
            rw [jsSetAddAll_eq_nil_iff]
            exact ⟨hnr, hu⟩
          have hb1 : s.needsRender.isEmpty = true := by rw [hnr]; rfl
          have hb2 : (jsSetAddAll s.needsRender (requestUIDs s0 r)).isEmpty = true := by
            rw [hAe]; rfl
          have hb3 : (requestUIDs s0 r).isEmpty = true := by rw [hu]; rfl
          rw [hfc.2, hb2, hb1]
          simp [schedulePatternFrom, hb3, hAe]
        · have hAne : jsSetAddAll s.needsRender (requestUIDs s0 r) ≠ [] := by
            rw [Ne, jsSetAddAll_eq_nil_iff]
            rintro ⟨-, h⟩
            exact hu h
          have hb1 : s.needsRender.isEmpty = true := by rw [hnr]; rfl
          have hb2 : (jsSetAddAll s.needsRender (requestUIDs s0 r)).isEmpty = false :=
            isEmpty_false_of_ne_nil _ hAne
          have hb3 : (requestUIDs s0 r).isEmpty = false := isEmpty_false_of_ne_nil _ hu
          rw [hfc.2, hb2, hb1]
          rw [hnr] at hAne
          simp [schedulePatternFrom, hb3, hnr, hAne]
      · have hAne : jsSetAddAll s.needsRender (requestUIDs s0 r) ≠ [] := by
          rw [Ne, jsSetAddAll_eq_nil_iff]
          rintro ⟨h, -⟩
          exact hnr h
        have hb1 : s.needsRender.isEmpty = false := isEmpty_false_of_ne_nil _ hnr
        have hb2 : (jsSetAddAll s.needsRender (requestUIDs s0 r)).isEmpty = false :=
          isEmpty_false_of_ne_nil _ hAne
        rw [hfc.2, hb2, hb1]
        simp [schedulePatternFrom, hnr]

theorem foldl_addAll_mem (reqs : List RenderRequest) (f : RenderRequest → List String)
    (init : List String) (x : String) :
    x ∈ reqs.foldl (fun nr r => jsSetAddAll nr (f r)) init
      ↔ (x ∈ init ∨ ∃ r ∈ reqs, x ∈ f r) := by
  induction reqs generalizing init with
  | nil => simp
  | cons r rest ih =>
    simp only [List.foldl_cons]
    rw [ih, jsSetAddAll_mem]
    simp only [List.mem_cons]
    constructor
    · rintro ((hx | hx) | ⟨r2, hr2, hx⟩)
      · exact Or.inl hx
      · exact Or.inr ⟨r, Or.inl rfl, hx⟩
      · exact Or.inr ⟨r2, Or.inr hr2, hx⟩
    · rintro (hx | ⟨r2, (rfl | hr2), hx⟩)
      · exact Or.inl (Or.inl hx)
      · exact Or.inl (Or.inr hx)
      · exact Or.inr ⟨r2, hr2, hx⟩

theorem scheduleCount_append (a b : List Effect) :
    scheduleCount (a ++ b) = scheduleCount a + scheduleCount b := by
  simp [scheduleCount, List.filter_append]

theorem scheduleCount_concat (L : List (List Effect)) :
    scheduleCount (concatEffects L) = (L.map scheduleCount).sum := by
  induction L with
  | nil => simp [concatEffects, scheduleCount]
  | cons a L ih =>
    simp only [concatEffects, List.foldr_cons] at ih ⊢
    rw [scheduleCount_append, ih]
    simp

theorem schedulePatternFrom_false_sum (ls : List (List String)) :
    (schedulePatternFrom false ls).sum = 0 := by
  induction ls with
  | nil => rfl
  | cons l ls ih => simp [schedulePatternFrom, ih]

theorem schedulePatternFrom_true_sum (ls : List (List String)) :
    (schedulePatternFrom true ls).sum = (if ∀ l ∈ ls, l = [] then 0 else 1) := by
  induction ls with
  | nil => simp [schedulePatternFrom]
  | cons l ls ih =>
    by_cases hl : l = []
    · subst hl
      simp [schedulePatternFrom, ih]
    · simp [schedulePatternFrom, List.isEmpty_iff, hl, schedulePatternFrom_false_sum]

/-- Claim C1: from a state with an empty dirty set and no scheduled callback,
any sequence of render requests (through any of the six entry points, all of
which funnel into the dirty-set-and-schedule primitive) schedules its callbacks
according to the first-non-empty pattern — nothing before the first request
carrying uids, exactly one there, nothing afterwards, hence exactly one in
total when any request carries a uid — and ends with the dirty set equal to
the union of all requested viewport uids. -/
theorem claimC1_request_coalescing (s0 : EngineState) (reqs : List RenderRequest)
    (h1 : s0.needsRender = []) (h2 : s0.animationFrameSet = false)
    (h3 : s0.hasBeenDestroyed = false)
    (hok : ∀ r ∈ reqs, requestOk s0 r = true) :
    (∀ x, x ∈ (runRequests s0 reqs).1.needsRender
        ↔ ∃ r ∈ reqs, x ∈ requestUIDs s0 r) ∧
    ((runRequests s0 reqs).2).map scheduleCount
        = schedulePatternFrom true (reqs.map (requestUIDs s0)) ∧
    scheduleCount (concatEffects (runRequests s0 reqs).2)
        = (if ∀ r ∈ reqs, requestUIDs s0 r = [] then 0 else 1) := by
  have hflag0 : s0.animationFrameSet = !s0.needsRender.isEmpty := by
    rw [h1, h2]
    rfl
  have hspec := runRequests_spec s0 reqs s0 rfl h3 hflag0 hok
  have hpat : ((runRequests s0 reqs).2).map scheduleCount
      = schedulePatternFrom true (reqs.map (requestUIDs s0)) := by
    rw [hspec.2.2.2.2, h1]
    rfl
  refine ⟨?_, hpat, ?_⟩
  · intro x
    rw [hspec.2.2.1, foldl_addAll_mem, h1]
    simp
  · rw [scheduleCount_concat, hpat, schedulePatternFrom_true_sum]
    congr 1
    simp

/-- Witness for claim C1 at the configured engine and a concrete sequence of
four requests through three different entry points. -/
theorem claimC1_request_coalescing_witness :
    (∀ x, x ∈ (runRequests engineTwoVP requestSeq).1.needsRender
        ↔ ∃ r ∈ requestSeq, x ∈ requestUIDs engineTwoVP r) ∧
    ((runRequests engineTwoVP requestSeq).2).map scheduleCount
        = schedulePatternFrom true (requestSeq.map (requestUIDs engineTwoVP)) ∧
    scheduleCount (concatEffects (runRequests engineTwoVP requestSeq).2)
        = (if ∀ r ∈ requestSeq, requestUIDs engineTwoVP r = [] then 0 else 1) :=
  claimC1_request_coalescing engineTwoVP requestSeq
    (by decide) (by decide) (by decide) (by decide)

end Cornerstone

namespace Cornerstone

theorem syncCanvas_width (c : Canvas) : (syncCanvas c).width = c.clientWidth := by
  simp only [syncCanvas]
  split
  · rfl
  · rename_i h
    push_neg at h
    exact h.1

theorem syncCanvas_height (c : Canvas) : (syncCanvas c).height = c.clientHeight := by
  simp only [syncCanvas]
  split
  · rfl
  · rename_i h
    push_neg at h
    exact h.2

theorem setVPLoop_created (W : Nat) (Hq : ℚ) (inputs : List ViewportInput) (acc : SetVPAcc) :
    (setVPLoop W Hq inputs acc).created = acc.created ++ createdFrom acc.xOffset inputs ∧
    (setVPLoop W Hq inputs acc).renderers
      = acc.renderers ++ renderersFrom W Hq acc.xOffset inputs := by
  induction inputs generalizing acc with
  | nil => simp [setVPLoop, createdFrom, renderersFrom]
  | cons d rest ih =>
    simp only [setVPLoop, createdFrom, renderersFrom]
    constructor
    · rw [(ih _).1]
      simp
    · rw [(ih _).2]
      simp

theorem createdFrom_sourceRects (inputs : List ViewportInput) (x : Nat) :
    (createdFrom x inputs).map sourceRect
      = specLayoutRectsFrom x (inputs.map inputDims) := by
  induction inputs generalizing x with
  | nil => simp [createdFrom, specLayoutRectsFrom]
  | cons d rest ih =>
    simp only [createdFrom, List.map_cons, inputDims, specLayoutRectsFrom, sourceRect]
    rw [syncCanvas_width, syncCanvas_height, ih]

theorem natListMax_aux_le (l : List Nat) (a : Nat) :
    a ≤ l.foldl (fun x y => max x y) a := by
  induction l generalizing a with
  | nil => simp
  | cons b l ih => exact le_trans (le_max_left a b) (ih (max a b))

theorem natListMax_ge_mem (l : List Nat) (a x : Nat) (hx : x ∈ l) :
    x ≤ l.foldl (fun p q => max p q) a := by
  induction l generalizing a with
  | nil => cases hx
  | cons b l ih =>
    rcases List.mem_cons.mp hx with rfl | h
    · exact le_trans (le_max_right a x) (natListMax_aux_le l (max a x))
    · exact ih (max a b) h

theorem natListMax_attained (l : List Nat) (a : Nat) :
    l.foldl (fun p q => max p q) a ∈ a :: l := by
  induction l generalizing a with
  | nil => simp
  | cons b l ih =>
    simp only [List.foldl_cons]
    have h2 := ih (max a b)
    rcases List.mem_cons.mp h2 with heq | h
    · rw [heq]
      rcases max_choice a b with hc | hc <;> rw [hc] <;> simp
    · simp [List.mem_cons, h]

theorem jsMathMax_eq_num (l : List Nat) (h : l ≠ []) :
    jsMathMax l = JsNum.num (natListMax l) := by
  cases l with
  | nil => exact absurd rfl h
  | cons a l =>
    simp only [jsMathMax, natListMax, List.foldl_cons, Nat.zero_max]

theorem natListMax_spec (l : List Nat) (h : l ≠ []) :
    (∀ x ∈ l, x ≤ natListMax l) ∧ natListMax l ∈ l := by
  constructor
  · intro x hx
    exact natListMax_ge_mem l 0 x hx
  · cases l with
    | nil => exact absurd rfl h
    | cons a t =>
      have h2 := natListMax_attained (a :: t) 0
      rcases List.mem_cons.mp h2 with heq | hmem
      · have ha := natListMax_ge_mem (a :: t) 0 a (List.mem_cons_self a t)
        rw [heq] at ha
        rw [natListMax, heq]
        have ha0 : a = 0 := Nat.le_zero.mp ha
        simp [ha0]
      · rw [natListMax]
        exact hmem

end Cornerstone

namespace Cornerstone

theorem specLayoutRectsFrom_append (l1 l2 : List (Nat × Nat)) (x : Nat) :
    specLayoutRectsFrom x (l1 ++ l2)
      = specLayoutRectsFrom x l1
          ++ specLayoutRectsFrom (x + (l1.map Prod.fst).sum) l2 := by
  induction l1 generalizing x with
  | nil => simp [specLayoutRectsFrom]
  | cons p rest ih =>
    obtain ⟨w, h⟩ := p
    simp only [List.cons_append, specLayoutRectsFrom, List.map_cons, List.sum_cons,
      List.append_eq]
    rw [ih]
    have harith : x + w + (rest.map Prod.fst).sum = x + (w + (rest.map Prod.fst).sum) := by
      omega
    rw [harith]

theorem resizeVPs_spec (W : Nat) (Hq : ℚ) (vs : List Viewport) (x : Nat)
    (rs : List RendererEntry) :
    (resizeVPs W Hq vs x rs).1.map sourceRect
        = specLayoutRectsFrom x (vs.map clientDims) ∧
    (resizeVPs W Hq vs x rs).2.1
        = x + (vs.map (fun v => v.canvas.clientWidth)).sum := by
  induction vs generalizing x rs with
  | nil => simp [resizeVPs, specLayoutRectsFrom]
  | cons v rest ih =>
    simp only [resizeVPs, List.map_cons, List.sum_cons]
    constructor
    · rw [(ih _ _).1]
      simp only [clientDims, specLayoutRectsFrom, sourceRect, resizeVP]
    · rw [(ih _ _).2]
      omega

theorem resizeScenes_spec (W : Nat) (Hq : ℚ) (scenes : List Scene) (x : Nat)
    (rs : List RendererEntry) :
    (flatViewports (resizeScenes W Hq scenes x rs).1).map sourceRect
        = specLayoutRectsFrom x ((flatViewports scenes).map clientDims) ∧
    (resizeScenes W Hq scenes x rs).2.1
        = x + ((flatViewports scenes).map (fun v => v.canvas.clientWidth)).sum := by
  induction scenes generalizing x rs with
  | nil => simp [resizeScenes, flatViewports, specLayoutRectsFrom]
  | cons sc rest ih =>
    have hflat : ∀ (a : Scene) (l : List Scene),
        flatViewports (a :: l) = a.viewports ++ flatViewports l := by
      intro a l
      simp [flatViewports]
    simp only [resizeScenes, hflat, List.map_append]
    constructor
    · rw [(resizeVPs_spec W Hq sc.viewports x rs).1,
          (ih _ _).1,
          (resizeVPs_spec W Hq sc.viewports x rs).2,
          specLayoutRectsFrom_append]
      have hw : ((sc.viewports.map clientDims).map Prod.fst).sum
          = (sc.viewports.map (fun v => v.canvas.clientWidth)).sum := by
        rw [List.map_map]
        rfl
      rw [hw]
    · rw [(ih _ _).2, (resizeVPs_spec W Hq sc.viewports x rs).2, List.sum_append]
      omega

theorem renderOp_state_preserves (s : EngineState) :
    (renderOp s).state.scenes = s.scenes ∧
    (renderOp s).state.containerWidth = s.containerWidth ∧
    (renderOp s).state.containerHeight = s.containerHeight := by
  simp only [renderOp]
  split
  · simp
  · simp only [_setViewportsToBeRenderedNextFrame, _render]
    split <;> simp

/-- Claim C5: setViewports sizes the shared surface to the sum of the
descriptors' client widths by the maximum of their client heights (the maximum
is attained and bounds every height) and packs the created viewports at
x-offsets equal to the running sum of the preceding widths with y zero; resize
computes the same packing function of the live client dimensions, so on
identical dimensions both produce identical shared-surface sizes and identical
source rectangles. -/
theorem claimC5_layout_agreement (s : EngineState) (inputs : List ViewportInput)
    (hd : s.hasBeenDestroyed = false) (hne : inputs ≠ [])
    (hdims : (getViewportsList s).map clientDims = inputs.map inputDims) :
    (setViewportsOp s inputs).state.containerWidth
        = specSharedWidth (inputs.map inputDims) ∧
    (setViewportsOp s inputs).state.containerHeight
        = specSharedHeight (inputs.map inputDims) ∧
    (setViewportsOp s inputs).state.containerHeight
        = JsNum.num (natListMax (inputs.map (fun d => d.canvas.clientHeight))) ∧
    (∀ hgt ∈ inputs.map (fun d => d.canvas.clientHeight),
        hgt ≤ natListMax (inputs.map (fun d => d.canvas.clientHeight))) ∧
    natListMax (inputs.map (fun d => d.canvas.clientHeight))
        ∈ inputs.map (fun d => d.canvas.clientHeight) ∧
    (setViewportsCreated inputs).map sourceRect
        = specLayoutRects (inputs.map inputDims) ∧
    (resizeOp s).state.containerWidth = specSharedWidth (inputs.map inputDims) ∧
    (resizeOp s).state.containerHeight = specSharedHeight (inputs.map inputDims) ∧
    (getViewportsList (resizeOp s).state).map sourceRect
        = specLayoutRects (inputs.map inputDims) := by
  have hne2 : inputs.map (fun d => d.canvas.clientHeight) ≠ [] := by
    intro h
    exact hne (List.map_eq_nil_iff.mp h)
  have hmax := natListMax_spec (inputs.map (fun d => d.canvas.clientHeight)) hne2
  have hwidth : specSharedWidth (inputs.map inputDims)
      = (inputs.map (fun d => d.canvas.clientWidth)).sum := by
    rw [specSharedWidth, List.map_map]
    rfl
  have hheight : specSharedHeight (inputs.map inputDims)
      = jsMathMax (inputs.map (fun d => d.canvas.clientHeight)) := by
    rw [specSharedHeight, List.map_map]
    rfl
  have hsetW : (setViewportsOp s inputs).state.containerWidth
      = (inputs.map (fun d => d.canvas.clientWidth)).sum := by
    simp [setViewportsOp, hd]
  have hsetH : (setViewportsOp s inputs).state.containerHeight
      = jsMathMax (inputs.map (fun d => d.canvas.clientHeight)) := by
    simp [setViewportsOp, hd]
  have hcreated : (setViewportsCreated inputs).map sourceRect
      = specLayoutRects (inputs.map inputDims) := by
    rw [setViewportsCreated, (setVPLoop_created _ _ _ _).1]
    simp only [List.nil_append]
    rw [createdFrom_sourceRects]
    rfl
  -- resize facts
  have hrw : (getViewportsList s).map (fun v => v.canvas.clientWidth)
      = inputs.map (fun d => d.canvas.clientWidth) := by
    have h2 := congrArg (List.map Prod.fst) hdims
    rw [List.map_map, List.map_map] at h2
    exact h2
  have hrh : (getViewportsList s).map (fun v => v.canvas.clientHeight)
      = inputs.map (fun d => d.canvas.clientHeight) := by
    have h2 := congrArg (List.map Prod.snd) hdims
    rw [List.map_map, List.map_map] at h2
    exact h2
  have hresizeState : (resizeOp s).state.containerWidth
        = ((getViewportsList s).map (fun v => v.canvas.clientWidth)).sum ∧
      (resizeOp s).state.containerHeight
        = jsMathMax ((getViewportsList s).map (fun v => v.canvas.clientHeight)) ∧
      (resizeOp s).state.scenes
        = (resizeScenes ((getViewportsList s).map (fun v => v.canvas.clientWidth)).sum
            (jsNumToRat (jsMathMax ((getViewportsList s).map (fun v => v.canvas.clientHeight))))
            s.scenes 0 s.renderers).1 := by
    simp only [resizeOp, hd, Bool.false_eq_true, if_false]
    refine ⟨?_, ?_, ?_⟩
    · rw [(renderOp_state_preserves _).2.1]
    · rw [(renderOp_state_preserves _).2.2]
    · rw [(renderOp_state_preserves _).1]
  refine ⟨?_, ?_, ?_, hmax.1, hmax.2, hcreated, ?_, ?_, ?_⟩
  · rw [hsetW, hwidth]
  · rw [hsetH, hheight]
  · rw [hsetH, jsMathMax_eq_num _ hne2]
  · rw [hresizeState.1, hrw, hwidth]
  · rw [hresizeState.2.1, hrh, hheight]
  · rw [getViewportsList, hresizeState.2.2]
    rw [(resizeScenes_spec _ _ _ _ _).1]
    rw [show (flatViewports s.scenes) = getViewportsList s from rfl, hdims]
    rfl

theorem renderersFrom_matches_createdFrom (W : Nat) (Hq : ℚ) (inputs : List ViewportInput)
    (x : Nat) (i : Nat) (hi : i < inputs.length) :
    ((renderersFrom W Hq x inputs).getD i dummyRenderer).uid
        = ((createdFrom x inputs).getD i dummyViewport).uid ∧
    ((renderersFrom W Hq x inputs).getD i dummyRenderer).rect
        = normalizedRect W Hq ((createdFrom x inputs).getD i dummyViewport).sx
            ((createdFrom x inputs).getD i dummyViewport).sy
            ((createdFrom x inputs).getD i dummyViewport).sWidth
            ((createdFrom x inputs).getD i dummyViewport).sHeight := by
  induction inputs generalizing x i with
  | nil => simp at hi
  | cons d rest ih =>
    cases i with
    | zero => simp [renderersFrom, createdFrom]
    | succ n =>
      simp only [renderersFrom, createdFrom, List.getD_cons_succ]
      exact ih (x + (syncCanvas d.canvas).width) n (by simpa using hi)

/-- Claim C6: each renderer slot that setViewports registers on the shared
surface carries the uid of the viewport created alongside it, and its
normalized rect equals the viewport's pixel source rectangle divided by the
shared-surface dimensions with the Y flip (y0 = sy + (H − h)/H, x1 = x0 + w/W,
y1 = y0 + h/H); the positivity hypotheses mark the domain on which total
rational division models the JS floating-point division. -/
theorem claimC6_normalized_rect_consistency (inputs : List ViewportInput) (i : Nat)
    (hi : i < inputs.length)
    (hW : 0 < (inputs.map (fun d => d.canvas.clientWidth)).sum)
    (hH : 0 < natListMax (inputs.map (fun d => d.canvas.clientHeight))) :
    ((setViewportsRenderers inputs).getD i dummyRenderer).uid
        = ((setViewportsCreated inputs).getD i dummyViewport).uid ∧
    ((setViewportsRenderers inputs).getD i dummyRenderer).rect
        = ((((setViewportsCreated inputs).getD i dummyViewport).sx : ℚ)
             / (((inputs.map (fun d => d.canvas.clientWidth)).sum : Nat) : ℚ),
           ((((setViewportsCreated inputs).getD i dummyViewport).sy : ℚ))
             + ((jsNumToRat (jsMathMax (inputs.map (fun d => d.canvas.clientHeight)))
                  - (((setViewportsCreated inputs).getD i dummyViewport).sHeight : ℚ))
                 / jsNumToRat (jsMathMax (inputs.map (fun d => d.canvas.clientHeight)))),
           ((((setViewportsCreated inputs).getD i dummyViewport).sx : ℚ)
             / (((inputs.map (fun d => d.canvas.clientWidth)).sum : Nat) : ℚ))
             + ((((setViewportsCreated inputs).getD i dummyViewport).sWidth : ℚ)
                 / (((inputs.map (fun d => d.canvas.clientWidth)).sum : Nat) : ℚ)),
           (((((setViewportsCreated inputs).getD i dummyViewport).sy : ℚ))
             + ((jsNumToRat (jsMathMax (inputs.map (fun d => d.canvas.clientHeight)))
                  - (((setViewportsCreated inputs).getD i dummyViewport).sHeight : ℚ))
                 / jsNumToRat (jsMathMax (inputs.map (fun d => d.canvas.clientHeight)))))
             + ((((setViewportsCreated inputs).getD i dummyViewport).sHeight : ℚ)
                 / jsNumToRat (jsMathMax (inputs.map (fun d => d.canvas.clientHeight))))) := by
  have hcc := setVPLoop_created ((inputs.map (fun d => d.canvas.clientWidth)).sum)
    (jsNumToRat (jsMathMax (inputs.map (fun d => d.canvas.clientHeight)))) inputs
    { scenes := [], renderers := [], created := [], xOffset := 0, effects := [] }
  have hmatch := renderersFrom_matches_createdFrom
    ((inputs.map (fun d => d.canvas.clientWidth)).sum)
    (jsNumToRat (jsMathMax (inputs.map (fun d => d.canvas.clientHeight)))) inputs 0 i hi
  rw [setViewportsRenderers, setViewportsCreated, hcc.1, hcc.2]
  simp only [List.nil_append]
  refine ⟨hmatch.1, ?_⟩
  rw [hmatch.2]
  simp [normalizedRect]

end Cornerstone

namespace Cornerstone

/-- Witness for claim C5 at the configured two-viewport engine (whose live
client dimensions equal the descriptors') against the descriptors themselves. -/
theorem claimC5_layout_agreement_witness :
    (setViewportsOp engineTwoVP [inputA, inputB]).state.containerWidth
        = specSharedWidth ([inputA, inputB].map inputDims) ∧
    (setViewportsOp engineTwoVP [inputA, inputB]).state.containerHeight
        = specSharedHeight ([inputA, inputB].map inputDims) ∧
    (setViewportsOp engineTwoVP [inputA, inputB]).state.containerHeight
        = JsNum.num (natListMax ([inputA, inputB].map (fun d => d.canvas.clientHeight))) ∧
    (∀ hgt ∈ [inputA, inputB].map (fun d => d.canvas.clientHeight),
        hgt ≤ natListMax ([inputA, inputB].map (fun d => d.canvas.clientHeight))) ∧
    natListMax ([inputA, inputB].map (fun d => d.canvas.clientHeight))
        ∈ [inputA, inputB].map (fun d => d.canvas.clientHeight) ∧
    (setViewportsCreated [inputA, inputB]).map sourceRect
        = specLayoutRects ([inputA, inputB].map inputDims) ∧
    (resizeOp engineTwoVP).state.containerWidth
        = specSharedWidth ([inputA, inputB].map inputDims) ∧
    (resizeOp engineTwoVP).state.containerHeight
        = specSharedHeight ([inputA, inputB].map inputDims) ∧
    (getViewportsList (resizeOp engineTwoVP).state).map sourceRect
        = specLayoutRects ([inputA, inputB].map inputDims) :=
  claimC5_layout_agreement engineTwoVP [inputA, inputB]
    (by decide) (by decide) (by decide)

/-- Witness for claim C6 at the two-viewport example of the spec: a 600 by 300
shared surface, source rectangles (0,0,400,300) and (400,0,200,300), and
normalized rects [0,0,2/3,1] and [2/3,0,1,1]. -/
theorem claimC6_normalized_rect_consistency_witness :
    (0 < ([inputA, inputB].map (fun d => d.canvas.clientWidth)).sum) ∧
    (0 < natListMax ([inputA, inputB].map (fun d => d.canvas.clientHeight))) ∧
    (((setViewportsRenderers [inputA, inputB]).getD 0 dummyRenderer).uid
        = ((setViewportsCreated [inputA, inputB]).getD 0 dummyViewport).uid) ∧
    (((setViewportsRenderers [inputA, inputB]).getD 1 dummyRenderer).uid
        = ((setViewportsCreated [inputA, inputB]).getD 1 dummyViewport).uid) ∧
    ((setViewportsRenderers [inputA, inputB]).getD 0 dummyRenderer).rect
        = ((0 : ℚ), (0 : ℚ), (2 : ℚ)/3, (1 : ℚ)) ∧
    ((setViewportsRenderers [inputA, inputB]).getD 1 dummyRenderer).rect
        = ((2 : ℚ)/3, (0 : ℚ), (1 : ℚ), (1 : ℚ)) ∧
    (setViewportsCreated [inputA, inputB]).map sourceRect
        = [(0, 0, 400, 300), (400, 0, 200, 300)] ∧
    (setViewportsOp (initialEngine "engine") [inputA, inputB]).state.containerWidth
        = 600 ∧
    (setViewportsOp (initialEngine "engine") [inputA, inputB]).state.containerHeight
        = JsNum.num 300 :=
  ⟨by decide, by decide,
   (claimC6_normalized_rect_consistency [inputA, inputB] 0
     (by decide) (by decide) (by decide)).1,
   (claimC6_normalized_rect_consistency [inputA, inputB] 1
     (by decide) (by decide) (by decide)).1,
   by norm_num [setViewportsRenderers, setVPLoop, normalizedRect, syncCanvas,
     canvasA, canvasB, inputA, inputB, jsMathMax, jsNumToRat],
   by norm_num [setViewportsRenderers, setVPLoop, normalizedRect, syncCanvas,
     canvasA, canvasB, inputA, inputB, jsMathMax, jsNumToRat],
   by decide, by decide, by decide⟩

end Cornerstone
